import Mathlib

/- Shallow embedding of the linkytic Home Assistant integration:
   src/custom_components/linkytic/binary_sensor.py (async_setup_entry,
   SerialConnectivity, RelayState) and src/sensor.py (BASE).

   Python values that can be None, bool or int (the `_last_state` attribute)
   are modelled by the `PyVal` inductive; exceptions raised inside `update`
   are modelled by an `error` field of the result; log lines emitted on an
   availability transition are modelled by a list of `TransitionEvent`s. -/

namespace Linkytic

/-- A Python value as stored in `RelayState._last_state`: it is initialised to
`None`, assigned a `bool` by the bitfield test, and then overwritten with the
raw `int`. -/
inductive PyVal where
  | none
  | bool (b : Bool)
  | int (n : Int)
  deriving DecidableEq

/-- Python truthiness of a `PyVal`: `None` is falsy, a bool is itself, an int
is truthy iff nonzero. -/
def PyVal.truthy : PyVal → Bool
  | PyVal.none => false
  | PyVal.bool b => b
  | PyVal.int n => decide (n ≠ 0)

/-- A Python exception escaping `RelayState.update`. `typeError` is what
`int(None)` raises; `indexError` is what indexing a string out of range
raises. -/
inductive PyErr where
  | typeError
  | indexError
  deriving DecidableEq

/-- A log line emitted by `RelayState.update` when the availability flag
transitions (the two `_LOGGER.info` calls). -/
inductive TransitionEvent where
  | markedUnavailable
  | markedAvailable
  deriving DecidableEq

/-- The DOMAIN constant imported from `.const`. Modelled from the spec: the
file `const.py` is not part of src/; the concrete string is immaterial to
every claim, only its use as a prefix of unique ids. -/
def DOMAIN : String := "linkytic"

/-- Python f-string rendering of a `str | None` value (`f"{x}"` prints
`None` for `None`). -/
def pyStrOfOpt : Option String → String
  | Option.none => "None"
  | Option.some s => s

/-- Left-pad a character list with `c` to length `n`, as Python's
zero-padding in a format spec does. -/
def leftPad (c : Char) (n : Nat) (l : List Char) : List Char :=
  List.replicate (n - l.length) c ++ l

/-- Python `"{0:08b}".format(v)`: binary digits, most significant first,
zero-padded to a minimum width of 8; for a negative value the sign is
printed first and counts toward the width. Values above 255 simply produce
more than 8 digits — no exception is raised. -/
def pyFormat08b (v : Int) : List Char :=
  if v < 0 then '-' :: leftPad '0' 7 (Nat.toDigits 2 v.natAbs)
  else leftPad '0' 8 (Nat.toDigits 2 v.toNat)

/-- Python string indexing `s[i]` for a nonnegative index: raises IndexError
when out of range. -/
def pyStrIndex (l : List Char) (i : Nat) : Except PyErr Char :=
  match l.get? i with
  | Option.some c => Except.ok c
  | Option.none => Except.error PyErr.indexError

/-- Python `x is None` applied to a value that just went through `int(...)`:
an int is never None, so this is constantly false (the None branch in
`update` is dead code). -/
def pyIsNone (_ : Int) : Bool := false

/-- The mutable state of a `RelayState` entity (binary_sensor.py, class
RelayState): the fields set in `__init__` plus `_attr_available`, which is
inherited from the host `Entity` base class with default `True`. -/
structure RelayStateData where
  /-- `self._tag` -/
  tag : String
  /-- `self._config_title` -/
  config_title : String
  /-- `self._config_uniq_id` -/
  config_uniq_id : Option String
  /-- `self._attr_unique_id` -/
  unique_id : String
  /-- `self._attr_name` -/
  name : String
  /-- `self._attr_icon` -/
  icon : String
  /-- `self._relay_index` (0-based bit position) -/
  relay_index : Nat
  /-- `self._last_state` -/
  last_state : PyVal
  /-- `self._attr_available` (inherited default `True`) -/
  available : Bool
  deriving DecidableEq

/-- Embedding of `RelayState.__init__` (binary_sensor.py lines 128-148).
`relay_index` is the 1-based user index; the stored bit position is
`relay_index - 1`. Returns the constructed state together with the list of
tags for which `register_push_notif(tag, self.update_notification)` was
called on the serial controller. -/
def RelayState.init (title : String) (uniq_id : Option String)
    (relay_index : Nat) : RelayStateData × List String :=
  ({ tag := "RELAIS"
     config_title := title
     config_uniq_id := uniq_id
     unique_id := DOMAIN ++ "_" ++ pyStrOfOpt uniq_id ++ "_RELAIS_" ++
       toString relay_index
     name := "Relais " ++ toString relay_index
     icon := "mdi:electric-switch"
     relay_index := relay_index - 1
     last_state := PyVal.none
     available := true },
   ["RELAIS"])

/-- Embedding of the `RelayState.is_on` property (binary_sensor.py lines
162-165): returns `self._last_state` unchanged. -/
def RelayState.is_on (s : RelayStateData) : PyVal := s.last_state

/-- Result of one `RelayState.update` call: the state of the entity when the
call returns or raises, the availability-transition log lines emitted, and
the exception raised, if any. -/
structure UpdateResult where
  state : RelayStateData
  events : List TransitionEvent
  error : Option PyErr
  deriving DecidableEq

/-- Embedding of `RelayState.update` (binary_sensor.py lines 167-204).
`raw_value` is the value for the tag from `get_values` after `int(...)`
conversion: `Option.none` models the tag being absent, in which case
`value = int(value)` raises TypeError before anything else happens.
`full_frame` is `self._serial_controller.has_read_full_frame()`.
The subsequent `if value is None:` test is dead (value is an int once the
conversion succeeded), so the unavailability branch it guards never runs;
the present-value branch marks the entity available when it was not, decodes
the bit of `"{0:08b}".format(int(value))` at `self._relay_index`, stores the
boolean and the matching icon, and then the final `self._last_state = value`
overwrites the decoded boolean with the raw int. -/
def RelayState.update (s : RelayStateData) (raw_value : Option Int)
    (full_frame : Bool) : UpdateResult :=
  match raw_value with
  | Option.none =>
      -- value = int(value) with value None raises TypeError
      { state := s, events := [], error := Option.some PyErr.typeError }
  | Option.some v =>
      if pyIsNone v then
        -- dead branch: `if value is None:` after a successful int conversion
        if s.available && full_frame then
          { state := { s with available := false },
            events := [TransitionEvent.markedUnavailable],
            error := Option.none }
        else
          { state := s, events := [], error := Option.none }
      else
        -- if not self._attr_available: log and mark available
        let step1 : RelayStateData × List TransitionEvent :=
          if s.available = false then
            ({ s with available := true }, [TransitionEvent.markedAvailable])
          else (s, [])
        -- state_bitfield = "08b"-format of int(value)
        let state_bitfield := pyFormat08b v
        match pyStrIndex state_bitfield step1.1.relay_index with
        | Except.error e =>
            { state := step1.1, events := step1.2, error := Option.some e }
        | Except.ok c =>
            -- self._last_state = (bit char == "1"); icon follows the bool
            let decoded := c == '1'
            let s2 := { step1.1 with
              last_state := PyVal.bool decoded,
              icon := if decoded then "mdi:electric-switch-closed"
                      else "mdi:electric-switch" }
            -- Save value: self._last_state = value (overwrites the bool)
            let s3 := { s2 with last_state := PyVal.int v }
            { state := s3, events := step1.2, error := Option.none }

/-- A call the entity makes into the host framework. -/
inductive HostCall where
  | schedule_update_ha_state (force_refresh : Bool)
  deriving DecidableEq

/-- Embedding of `RelayState.update_notification` (binary_sensor.py lines
206-207): whatever the boolean argument, it requests
`schedule_update_ha_state(force_refresh=True)`. -/
def RelayState.update_notification (realtime_option : Bool) : HostCall :=
  HostCall.schedule_update_ha_state true

/-- An entity handed to `async_add_entities` by the binary-sensor setup:
either a constructed `RelayState` (with its push registrations) or a
`SerialConnectivity` sensor. -/
inductive Entity where
  | relay (s : RelayStateData) (registrations : List String)
  | serial_connectivity (title : String) (uniq_id : Option String)
  deriving DecidableEq

/-- Embedding of `async_setup_entry` (binary_sensor.py lines 30-73). The
`try/except KeyError` around `hass.data[DOMAIN][config_entry.entry_id]` is
modelled by `serial_reader_lookup`: `Option.none` means the lookup raised
KeyError, upon which the function logs an error and returns at once.  The
result collects the `async_add_entities` calls made, in order; the waiting
loop only sleeps and logs, adding no entities.  When the configured TIC mode
is standard, relays 1..8 are constructed and added; the connectivity sensor
is always added. -/
def async_setup_entry (serial_reader_lookup : Option Unit) (title : String)
    (entry_id : String) (ticmode_standard : Bool) : List (List Entity) :=
  match serial_reader_lookup with
  | Option.none => []
  | Option.some _ =>
      (if ticmode_standard then
        [(List.range' 1 8).map (fun i =>
          Entity.relay (RelayState.init title (Option.some entry_id) i).1
            (RelayState.init title (Option.some entry_id) i).2)]
      else []) ++
      [[Entity.serial_connectivity title (Option.some entry_id)]]

/-- The class-level attributes of the `BASE` sensor (src/sensor.py lines
32-62): every field is a literal constant; the class holds no reference to
a serial reader or any other input. -/
structure BASESensor where
  icon : String
  name : String
  should_poll : Bool
  unique_id : String
  device_class : String
  native_value : Int
  native_unit_of_measurement : String
  state_class : String
  deriving DecidableEq

/-- Embedding of `BASE.__init__` together with the class attributes: the
constructor body only logs. -/
def BASE.init : BASESensor :=
  { icon := "mdi:counter"
    name := "Index option Base"
    should_poll := false
    unique_id := "base"
    device_class := "energy"
    native_value := 42
    native_unit_of_measurement := "Wh"
    state_class := "total_increasing" }

/-- Reading the native value of a sensor: a pure projection that leaves the
sensor unchanged, so repeated reads return the same constant. -/
def BASE.read (s : BASESensor) : Int × BASESensor := (s.native_value, s)

/-- Claim C1: the claim states that after update with raw value v, is_on is
true iff the MSB-first bit i-1 of the 8-bit representation of v is 1. It
fails on the code: at v = 2, relay 1 (bit position 0 of 00000010, which is
0), the final assignment overwrites the decoded boolean with the raw int, so
is_on returns the int 2 — truthy — while the specified bit is 0; the icon,
set from the decoded boolean before the overwrite, still shows the open
switch. -/
theorem relay_update_overwrites_decoded_bool :
    (RelayState.update (RelayState.init "t" "u" 1).1 (Option.some 2)
      true).error = Option.none
  ∧ RelayState.is_on (RelayState.update (RelayState.init "t" "u" 1).1
      (Option.some 2) true).state = PyVal.int 2
  ∧ (RelayState.is_on (RelayState.update (RelayState.init "t" "u" 1).1
      (Option.some 2) true).state).truthy = true
  ∧ Nat.testBit 2 (7 - 0) = false
  ∧ (RelayState.update (RelayState.init "t" "u" 1).1 (Option.some 2)
      true).state.icon = "mdi:electric-switch" := by
  decide

/-- Claim C2: the claim states that with the tag absent, the entity
available and a full frame read, update completes and sets availability to
false. On the code, int(None) raises TypeError before the None check is
reached, so update raises, the availability flag stays true and no
transition event is emitted; the state is returned exactly as it was. -/
theorem relay_update_absent_raises_type_error :
    (RelayState.update (RelayState.init "t" "u" 1).1 Option.none
      true).error = Option.some PyErr.typeError
  ∧ (RelayState.update (RelayState.init "t" "u" 1).1 Option.none
      true).state = (RelayState.init "t" "u" 1).1
  ∧ (RelayState.update (RelayState.init "t" "u" 1).1 Option.none
      true).state.available = true
  ∧ (RelayState.update (RelayState.init "t" "u" 1).1 Option.none
      true).events = [] := by
  decide

/-- Claim C3, counterexample: the claim states that a raw value of 256 makes
update fail with a decode error and leaves the prior observed state
unchanged. On the code, at raw value 256 with prior observed state false,
update returns no error and replaces the prior state with the int 256. -/
theorem relay_update_256_counterexample :
    (RelayState.update
      { (RelayState.init "t" "u" 1).1 with last_state := PyVal.bool false }
      (Option.some 256) true).error = Option.none
  ∧ (RelayState.update
      { (RelayState.init "t" "u" 1).1 with last_state := PyVal.bool false }
      (Option.some 256) true).state.last_state = PyVal.int 256
  ∧ PyVal.int 256 ≠ PyVal.bool false := by
  decide

/-- Claim C3, amended: for raw value 256 (outside the 8-bit range), update
does not fail with a decode error: the 08b format yields a 9-character
binary string, the relay bit is read from the head of that wider string
(position 0 holds the digit 1, so the icon switches to closed), and the
prior observed state is overwritten with the raw value 256. -/
theorem relay_update_256_amended :
    (pyFormat08b 256).length = 9
  ∧ pyStrIndex (pyFormat08b 256) 0 = Except.ok '1'
  ∧ (RelayState.update
      { (RelayState.init "t" "u" 1).1 with last_state := PyVal.bool false }
      (Option.some 256) false).error = Option.none
  ∧ (RelayState.update
      { (RelayState.init "t" "u" 1).1 with last_state := PyVal.bool false }
      (Option.some 256) false).state.last_state = PyVal.int 256
  ∧ (RelayState.update
      { (RelayState.init "t" "u" 1).1 with last_state := PyVal.bool false }
      (Option.some 256) false).state.icon = "mdi:electric-switch-closed" := by
  exact ⟨rfl, rfl, rfl, rfl, rfl⟩

/-- Claim C5: the claim states that from an unavailable state, update with a
present value flips availability to true and recomputes the boolean relay
state from the new value. On the code, availability does flip to true (one
transition event), but the stored state ends up as the raw int — at value 4
on relay 1 the decoded bit is 0, yet the final state is the truthy int 4,
not the boolean false. -/
theorem relay_update_recovery_stores_raw :
    (RelayState.update
      { (RelayState.init "t" "u" 1).1 with available := false }
      (Option.some 4) true).state.available = true
  ∧ (RelayState.update
      { (RelayState.init "t" "u" 1).1 with available := false }
      (Option.some 4) true).events = [TransitionEvent.markedAvailable]
  ∧ pyStrIndex (pyFormat08b 4) 0 = Except.ok '0'
  ∧ (RelayState.update
      { (RelayState.init "t" "u" 1).1 with available := false }
      (Option.some 4) true).state.last_state = PyVal.int 4
  ∧ ((RelayState.update
      { (RelayState.init "t" "u" 1).1 with available := false }
      (Option.some 4) true).state.last_state).truthy = true := by
  exact ⟨rfl, rfl, rfl, rfl, rfl⟩

/-- Claim C6: with the raw value absent and has_read_full_frame false, no
state change occurs: availability and the last observed state are both left
unchanged, and no transition event is emitted, whatever the starting state.
(The code reaches this outcome by raising TypeError at int(None) before any
field is written; the fields are indeed untouched.) -/
theorem relay_update_absent_noframe_nochange (s : RelayStateData) :
    (RelayState.update s Option.none false).state.available = s.available
  ∧ (RelayState.update s Option.none false).state.last_state = s.last_state
  ∧ (RelayState.update s Option.none false).events = [] := by
  simp [RelayState.update]

/-- Claim C7: when the serial reader lookup in the host data registry fails
(the try/except KeyError), async_setup_entry returns normally, and
async_add_entities is never called, whatever the entry title, id and TIC
mode. -/
theorem async_setup_entry_no_reader_adds_nothing (title entry_id : String)
    (ticmode_standard : Bool) :
    async_setup_entry Option.none title entry_id ticmode_standard = [] := by
  rfl

/-- Claim C8: construction of a RelayState registers a push-notification
callback for exactly the tag RELAIS, and every invocation of
update_notification — whatever its boolean argument — requests a forced
state republish with force_refresh set to true. -/
theorem relay_registers_push_and_forces_refresh (title : String)
    (uniq_id : Option String) (relay_index : Nat) (b : Bool) :
    (RelayState.init title uniq_id relay_index).2 = ["RELAIS"]
  ∧ RelayState.update_notification b = HostCall.schedule_update_ha_state true := by
  exact ⟨rfl, rfl⟩

/-- Claim C9: immediately after construction, is_on returns None — neither
the boolean true nor the boolean false — so the interface exposes a third,
unknown state before the first update. -/
theorem relay_is_on_initially_none (title : String) (uniq_id : Option String)
    (relay_index : Nat) :
    RelayState.is_on (RelayState.init title uniq_id relay_index).1 = PyVal.none
  ∧ RelayState.is_on (RelayState.init title uniq_id relay_index).1
      ≠ PyVal.bool true
  ∧ RelayState.is_on (RelayState.init title uniq_id relay_index).1
      ≠ PyVal.bool false := by
  refine ⟨rfl, ?_, ?_⟩ <;> simp [RelayState.is_on, RelayState.init]

/-- Claim C10: the BASE energy sensor exposes the constant native value 42
with unit Wh and the total-increasing state class; reading it consumes no
input and leaves the sensor unchanged, so repeated reads return 42 again. -/
theorem base_sensor_constant_value :
    BASE.read BASE.init = (42, BASE.init)
  ∧ BASE.init.native_value = 42
  ∧ BASE.init.native_unit_of_measurement = "Wh"
  ∧ BASE.init.state_class = "total_increasing"
  ∧ (BASE.read (BASE.read BASE.init).2).1 = 42 := by
  exact ⟨rfl, rfl, rfl, rfl, rfl⟩

/-- Claim C4: update is idempotent under unchanged inputs — a second call
with the same raw value and full-frame flag reports the same is_on value and
availability as the first and emits no transition event — and transition
events are edge-triggered: a call emits an event iff it actually flips the
availability flag (stated for an arbitrary starting state, hence for every
call in a chain). -/
theorem relay_update_idempotent_edge_triggered (s : RelayStateData)
    (raw_value : Option Int) (full_frame : Bool) :
    (RelayState.is_on (RelayState.update
        (RelayState.update s raw_value full_frame).state raw_value
        full_frame).state
      = RelayState.is_on (RelayState.update s raw_value full_frame).state)
  ∧ ((RelayState.update (RelayState.update s raw_value full_frame).state
        raw_value full_frame).state.available
      = (RelayState.update s raw_value full_frame).state.available)
  ∧ (RelayState.update (RelayState.update s raw_value full_frame).state
        raw_value full_frame).events = []
  ∧ ((RelayState.update s raw_value full_frame).events ≠ [] ↔
      (RelayState.update s raw_value full_frame).state.available
        ≠ s.available) := by
  cases raw_value with
  | none => simp [RelayState.update, RelayState.is_on]
  | some v =>
      cases hA : s.available <;>
        cases hg : pyStrIndex (pyFormat08b v) s.relay_index <;>
          simp [RelayState.update, RelayState.is_on, pyIsNone, hA, hg]

end Linkytic
